import Mathlib

/-!
Verification of the galion job-orchestration core against its specification.

The development shallowly embeds the relevant parts of the source:

* `src/remote.rs` — `ConfigOrigin`, `RemoteConfiguration`, `EditRemote` and its
  cursor-based text editing operations;
* `src/app.rs` — `GalionConfig` and `save_config`;
* `src/ui.rs` — the job data model (`SyncJobData`, `JobStatus`, `JobState`,
  `JobsList`), the background worker loop (`background_thread`), and the
  interaction state machine (`TuiMode`, the key-event handlers).

Rust `String` text is modelled as Lean `String`; the edit buffer's fields are
modelled as `List Char`, because every mutation in the source is performed at
character granularity (`chars()`, `char_indices()`): the byte offset computed
by `byte_index` is always the offset of character number `character_index`
(or the total length), hence always a character boundary, so byte-level
insertion coincides with insertion at character position
`min character_index length` and UTF-8 well-formedness is preserved by
construction.  `u64` is modelled as `Nat` (no arithmetic is performed on job
ids).  The `f64` field `duration` of `JobStatus` is never computed with by the
program — it is only deserialized and displayed — so it is carried opaquely as
its textual representation.  `BTreeMap<SyncJobData, JobState>` is modelled as
an association list with first-match lookup and update-or-append insertion;
the map's key order only affects display order, on which no claim depends,
and key uniqueness (a `BTreeMap` invariant) is carried as an explicit
hypothesis where needed.  File I/O (`std::fs::write` in `save_config`) and
the rclone RPC engine are external collaborators: their outcomes enter the
model as explicit parameters (`saveErr`, poll/submit response oracles).
-/

namespace Galion

/-- `ConfigOrigin` from `src/remote.rs`: `GalionConfig` is the spec's
`UserDefined`, `RcloneConfig` is the spec's `ExternallyDiscovered`. -/
inductive ConfigOrigin where
  | GalionConfig
  | RcloneConfig
deriving DecidableEq

/-- `RemoteConfiguration` from `src/remote.rs`. -/
structure RemoteConfiguration where
  remote_name : String
  remote_src : Option String
  remote_dest : Option String
  config_origin : ConfigOrigin
deriving DecidableEq

/-- `SyncJobData` from `src/ui.rs` (the spec's `SyncJobIdentity`). -/
structure SyncJobData where
  job_id : Nat
  name : String
  src : String
  dest : String
deriving DecidableEq

/-- `JobStatus` from `src/ui.rs`.  `duration` is an `f64` in the source; the
program never computes with it, so it is carried opaquely as text. -/
structure JobStatus where
  success : Bool
  duration : String
  error : String
  start_time : String
  debug_str : Option String
deriving DecidableEq

/-- `JobState` from `src/ui.rs`. -/
inductive JobState where
  | Sent
  | Pending (status : JobStatus)
  | Done (status : JobStatus)
deriving DecidableEq

/-- `JobState::is_waiting` from `src/ui.rs`. -/
def JobState.is_waiting : JobState → Bool
  | .Sent => true
  | .Pending _ => true
  | .Done _ => false

/-- `JobsList = BTreeMap<SyncJobData, JobState>` from `src/ui.rs`, modelled
as an association list (see the module docstring). -/
abbrev JobsList := List (SyncJobData × JobState)

/-- `BTreeMap::insert`: replace the value of an existing key, otherwise add
the entry (a `BTreeMap` keeps keys sorted; traversal order is irrelevant to
every property stated below, so the new entry is appended). -/
def insertJob : JobsList → SyncJobData → JobState → JobsList
  | [], k, v => [(k, v)]
  | (k', v') :: rest, k, v =>
    if k = k' then (k, v) :: rest else (k', v') :: insertJob rest k v

/-- `BTreeMap::get`: the value stored at a key. -/
def lookupJob : JobsList → SyncJobData → Option JobState
  | [], _ => none
  | (k', v') :: rest, k => if k = k' then some v' else lookupJob rest k

/-- `SyncJob` from `src/ui.rs`: the command-channel messages
(front end → worker). -/
inductive SyncJob where
  | Exit
  | Sync (data : SyncJobData)
deriving DecidableEq

/-- `ResultJob` from `src/ui.rs`: the snapshot-channel messages
(worker → front end); `Exit` is the spec's `Terminated`. -/
inductive ResultJob where
  | Exit
  | Sync (jobs : JobsList)
deriving DecidableEq

/-- Outcome of one `rclone.job_status(job_id)` call followed by the decoding
performed in `background_thread` (`src/ui.rs` lines 163-178):

* `transportErr` — the RPC call itself returned `Err` (the `if let Ok`
  test fails and the entry is left untouched);
* `malformed` — the RPC call succeeded but `serde_json::from_value::<JobStatus>`
  fails (the `?` operator aborts the loop);
* `ok finished status` — decoding succeeded; `finished` is the `"finished"`
  field of the response: `some b` when it is JSON boolean `b`, `none` when it
  is absent or not a boolean (the source treats a non-boolean exactly like an
  absent field).  `status` already carries the `debug_str` the source attaches
  after decoding. -/
inductive PollResponse where
  | transportErr
  | malformed
  | ok (finished : Option Bool) (status : JobStatus)

/-- The poll cycle of `background_thread` (`src/ui.rs` lines 160-179): the
`for` loop iterates over a clone of `tracking_jobs` taken at cycle start
(`clone`), while updates are inserted into the live map (`live`).  Entries
already `Done` are skipped; a transport error leaves the entry untouched; a
decode failure propagates out of the loop via `?` (modelled `.error ()`);
otherwise the entry becomes `Done status` when the engine reports
`finished = true` and `Pending status` otherwise. -/
def pollOnce (oracle : Nat → PollResponse) : JobsList → JobsList → Except Unit JobsList
  | [], live => .ok live
  | (k, st) :: rest, live =>
    match st, oracle k.job_id with
    | .Done _, _ => pollOnce oracle rest live
    | _, .transportErr => pollOnce oracle rest live
    | _, .malformed => .error ()
    | _, .ok finished status =>
      pollOnce oracle rest
        (insertJob live k
          (if finished = some true then JobState.Done status else JobState.Pending status))

/-- One full poll pass: iterate over the clone of the map, starting from the
live map itself. -/
def pollCycle (oracle : Nat → PollResponse) (jobs : JobsList) : Except Unit JobsList :=
  pollOnce oracle jobs jobs

/-- Outcome of one `rclone.sync(src, dest, true)` call followed by the job-id
extraction in `background_thread` (`src/ui.rs` lines 204-214):

* `rpcErr` — the call returned `Err` (the `?` operator aborts the loop);
* `noJobId` — the call succeeded but the returned JSON has no `"jobid"`
  field that is a number representable as `u64`;
* `jobId id` — the call succeeded and returned job id `id`. -/
inductive SubmitResponse where
  | rpcErr
  | noJobId
  | jobId (id : Nat)
deriving DecidableEq

/-- Command handling in `background_thread` (`src/ui.rs` lines 200-215).
`.ok none` means the loop returns cleanly (`SyncJob::Exit`); `.error ()`
models the `?` on a failed `rclone.sync`; on success with a job id, the
submitted data is re-keyed with the returned id and inserted as `Sent`;
without a usable `"jobid"` the map is left as is and the loop continues. -/
def handleCommand (jobs : JobsList) : SyncJob → SubmitResponse → Except Unit (Option JobsList)
  | .Exit, _ => .ok none
  | .Sync _, .rpcErr => .error ()
  | .Sync _, .noJobId => .ok (some jobs)
  | .Sync d, .jobId id => .ok (some (insertJob jobs { d with job_id := id } JobState.Sent))

/-- `is_jobs_waiting` in `background_thread` (`src/ui.rs` line 158). -/
def anyWaiting (jobs : JobsList) : Bool :=
  jobs.any fun e => e.2.is_waiting

/-- The externally supplied inputs consumed by one iteration of the worker
loop: the poll-status oracle, the command received on the command channel
(`none` models `try_recv` finding the channel empty: the worker sleeps and
continues), and the submit-response used if the command is a `Sync`. -/
structure IterInput where
  oracle : Nat → PollResponse
  cmd : Option SyncJob
  submitResp : SubmitResponse

/-- One iteration of the `loop` in `background_thread` (`src/ui.rs` lines
157-216): when some job is waiting, poll every entry (a snapshot of the
updated map is then sent, which does not change the map); then handle the
received command, if any.  `.ok none` = the loop returns cleanly; channel
disconnections, which also return cleanly without touching the map, are not
modelled separately. -/
def workerIteration (jobs : JobsList) (inp : IterInput) : Except Unit (Option JobsList) :=
  match (if anyWaiting jobs then pollCycle inp.oracle jobs else .ok jobs) with
  | .error e => .error e
  | .ok jobs1 =>
    match inp.cmd with
    | none => .ok (some jobs1)
    | some c => handleCommand jobs1 c inp.submitResp

/-- The outer wrapper of `background_thread` (`src/ui.rs` lines 218-229):
on a loop error it sends `ResultJob::Exit` on the snapshot channel before
returning the error; the first component lists the messages sent there. -/
def backgroundThreadResult (loopResult : Except Unit Unit) : List ResultJob × Except Unit Unit :=
  match loopResult with
  | .ok _ => ([], .ok ())
  | .error _ => ([ResultJob.Exit], .error ())

/-- `EditRemote` from `src/remote.rs`: per-field text-editing state (the
spec's `EditBuffer`).  `idx_string` selects the active field (0 = name,
1 = source, anything else = destination); text is modelled at character
granularity (see the module docstring). -/
structure EditRemote where
  idx_string : Nat
  character_index : Nat
  edit_remote_name : List Char
  edit_remote_src : List Char
  edit_remote_dest : List Char
deriving DecidableEq

/-- The input selected by `idx_string` (the `match self.idx_string` repeated
throughout `src/remote.rs`). -/
def EditRemote.activeInput (e : EditRemote) : List Char :=
  match e.idx_string with
  | 0 => e.edit_remote_name
  | 1 => e.edit_remote_src
  | _ => e.edit_remote_dest

/-- Writing back through the `&mut` reference produced by the same
`match self.idx_string`. -/
def EditRemote.setActiveInput (e : EditRemote) (l : List Char) : EditRemote :=
  match e.idx_string with
  | 0 => { e with edit_remote_name := l }
  | 1 => { e with edit_remote_src := l }
  | _ => { e with edit_remote_dest := l }

/-- `EditRemote::clamp_cursor` from `src/remote.rs`:
`new_cursor_pos.clamp(0, input_count)`; the lower clamp is vacuous on `Nat`. -/
def EditRemote.clamp_cursor (e : EditRemote) (new_cursor_pos : Nat) : Nat :=
  min new_cursor_pos e.activeInput.length

/-- `EditRemote::move_cursor_right` from `src/remote.rs`
(`saturating_add 1` then clamp; the saturation point of `usize` is
unreachable, `+ 1` is exact). -/
def EditRemote.move_cursor_right (e : EditRemote) : EditRemote :=
  { e with character_index := e.clamp_cursor (e.character_index + 1) }

/-- `EditRemote::move_cursor_left` from `src/remote.rs`; `usize`
`saturating_sub 1` is `Nat` subtraction. -/
def EditRemote.move_cursor_left (e : EditRemote) : EditRemote :=
  { e with character_index := e.clamp_cursor (e.character_index - 1) }

/-- `EditRemote::enter_char` from `src/remote.rs`: `byte_index` yields the
byte offset of character number `character_index` (or the byte length when
the cursor is at or past the end), always a character boundary, so the
byte-level `String::insert` is insertion at character position
`min character_index length`; the cursor then moves right. -/
def EditRemote.enter_char (e : EditRemote) (new_char : Char) : EditRemote :=
  let input := e.activeInput
  let index := min e.character_index input.length
  (e.setActiveInput (input.take index ++ [new_char] ++ input.drop index)).move_cursor_right

/-- `EditRemote::delete_char` from `src/remote.rs`: no-op when the cursor is
leftmost; otherwise rebuild the field from the characters before position
`character_index - 1` and from position `character_index` on, then move the
cursor left. -/
def EditRemote.delete_char (e : EditRemote) : EditRemote :=
  if e.character_index ≠ 0 then
    let input := e.activeInput
    (e.setActiveInput
        (input.take (e.character_index - 1) ++ input.drop e.character_index)).move_cursor_left
  else e

/-- `EditRemote::reset_char_index` from `src/remote.rs`: clamp the character
count of the active field (hence set the cursor to the end of the field). -/
def EditRemote.reset_char_index (e : EditRemote) : EditRemote :=
  { e with character_index := e.clamp_cursor e.activeInput.length }

/-- `EditRemote::finish` from `src/remote.rs`: the committed configuration;
note that both locators are unconditionally wrapped in `Some`. -/
def EditRemote.finish (e : EditRemote) : RemoteConfiguration :=
  { remote_name := e.edit_remote_name.asString
    remote_src := some e.edit_remote_src.asString
    remote_dest := some e.edit_remote_dest.asString
    config_origin := ConfigOrigin.GalionConfig }

/-- The edit buffer built by the edit-request handler (`src/ui.rs` lines
650-664): field 0 active, cursor 0, fields copied from the entry with
`unwrap_or_default()` turning an absent locator into the empty string. -/
def populateEditBuffer (config : RemoteConfiguration) : EditRemote :=
  { idx_string := 0
    character_index := 0
    edit_remote_name := config.remote_name.data
    edit_remote_src := (config.remote_src.getD "").data
    edit_remote_dest := (config.remote_dest.getD "").data }

/-- `GalionConfig` from `src/app.rs`; `config_path` is carried as plain
text (no path computation is performed on it). -/
structure GalionConfig where
  remote_configurations : List RemoteConfiguration
  config_path : String
deriving DecidableEq

/-- `GalionConfig::save_config` from `src/app.rs`: the value serialized and
written to `config_path`.  The function takes `&self`, so the in-memory
store is unchanged by saving; the `std::fs::write` itself is external and
only the written value is modelled. -/
def save_config (c : GalionConfig) : GalionConfig :=
  { remote_configurations :=
      c.remote_configurations.filter
        fun r => decide (r.config_origin = ConfigOrigin.GalionConfig)
    config_path := c.config_path }

/-- `TuiMode` from `src/ui.rs`. -/
inductive TuiMode where
  | Normal
  | Error (msg : String)
  | Delete
  | EditString (e : EditRemote)
deriving DecidableEq

/-- The state of `TuiApp` relevant to the claims (`src/ui.rs`): the
configuration store (`app_config.remote_configurations`, which
`app_config.remotes()` borrows), the table selection (`state.selected()`),
the front end's snapshot of the job map (`jobs`), the mode, the commands
sent so far on the command channel (`tx_to_thread`, in order), and the
`exit` flag.  Purely visual state (scrollbar, colors, column widths) is
omitted. -/
structure TuiState where
  remotes : List RemoteConfiguration
  selected : Option Nat
  jobs : JobsList
  mode : TuiMode
  sent : List SyncJob
  exit : Bool
deriving DecidableEq

/-- The key events the handlers of `src/ui.rs` distinguish; `other` stands
for every remaining `crossterm` key code (all fall into catch-all arms). -/
inductive KeyCode where
  | char (c : Char)
  | esc
  | enter
  | left
  | right
  | up
  | down
  | tab
  | backspace
  | delete
  | other
deriving DecidableEq

/-- `TuiApp::exit` from `src/ui.rs`: set the exit flag and send
`SyncJob::Exit` (a send failure is ignored). -/
def exit_app (s : TuiState) : TuiState :=
  { s with exit := true, sent := s.sent ++ [SyncJob.Exit] }

/-- `TuiApp::send_job` from `src/ui.rs` (lines 554-583): validate the
selection, then the source, then the destination; on the first failure set
an error mode and send nothing; otherwise send `SyncJob::Sync` with the
placeholder job id 0. -/
def send_job (s : TuiState) : TuiState :=
  match s.selected with
  | none => { s with mode := TuiMode.Error "No remote configuration selected" }
  | some idx =>
    match s.remotes[idx]? with
    | none =>
      let msg := "No remote configuration at index " ++ toString idx ++ " in remotes"
      { s with mode := TuiMode.Error msg }
    | some remote =>
      match remote.remote_src with
      | none => { s with mode := TuiMode.Error "Remote doesn't have a source - press e for edit" }
      | some remote_src =>
        match remote.remote_dest with
        | none =>
          { s with mode := TuiMode.Error "Remote doesn't have a destination - press e for edit" }
        | some remote_dest =>
          let sync_job : SyncJobData :=
            { job_id := 0, name := remote.remote_name, src := remote_src, dest := remote_dest }
          { s with sent := s.sent ++ [SyncJob.Sync sync_job] }

/-- The `'r' | Delete | Backspace` arm of `handle_key_event_normal_mode`
(`src/ui.rs` lines 592-604). -/
def delete_request (s : TuiState) : TuiState :=
  match s.selected with
  | some idx =>
    match s.remotes[idx]? with
    | some config =>
      if config.config_origin = ConfigOrigin.RcloneConfig then
        { s with mode := TuiMode.Error "Cannot delete a remote from the rclone config" }
      else
        { s with mode := TuiMode.Delete }
    | none => { s with mode := TuiMode.Error "Cannot delete the config" }
  | none => { s with mode := TuiMode.Error "Cannot delete the config" }

/-- The `'d'` arm of `handle_key_event_normal_mode` (`src/ui.rs` lines
605-619): duplicate the selected entry at the head of the store. -/
def duplicate_request (s : TuiState) : TuiState :=
  match s.selected with
  | some idx =>
    match s.remotes[idx]? with
    | some config =>
      if config.config_origin = ConfigOrigin.RcloneConfig then
        { s with mode := TuiMode.Error "Cannot duplicate a rclone config - try to edit it" }
      else
        { s with remotes := config :: s.remotes }
    | none => { s with mode := TuiMode.Error "Cannot duplicate the config" }
  | none => { s with mode := TuiMode.Error "Cannot duplicate the config" }

/-- The `'j' | Down` arm of `handle_key_event_normal_mode` (`src/ui.rs`
lines 620-634).  The source computes `self.app_config.remotes().len() - 1`
in `usize`: when the store is empty and a row is selected this subtraction
underflows — a panic in debug builds (and a wrap to `usize::MAX` in release
builds, which equally leaves the list bounds) — modelled as `none`. -/
def select_next (s : TuiState) : Option TuiState :=
  match s.selected with
  | some i =>
    if s.remotes.length = 0 then none
    else
      let last := s.remotes.length - 1
      some { s with selected := some (if i ≥ last then last else i + 1) }
  | none => some { s with selected := some 0 }

/-- The `'k' | Up` arm of `handle_key_event_normal_mode` (`src/ui.rs` lines
635-649). -/
def select_previous (s : TuiState) : TuiState :=
  match s.selected with
  | some i => { s with selected := some (if i = 0 then 0 else i - 1) }
  | none => { s with selected := some 0 }

/-- The `'e'` arm of `handle_key_event_normal_mode` (`src/ui.rs` lines
650-664). -/
def edit_request (s : TuiState) : TuiState :=
  match s.selected with
  | some idx =>
    match s.remotes[idx]? with
    | some config => { s with mode := TuiMode.EditString (populateEditBuffer config) }
    | none => { s with mode := TuiMode.Error "Cannot edit" }
  | none => { s with mode := TuiMode.Error "Cannot edit" }

/-- `TuiApp::handle_key_event_normal_mode` from `src/ui.rs` (lines 586-667);
`none` models a panic (see `select_next`). -/
def handle_key_event_normal_mode (s : TuiState) (k : KeyCode) : Option TuiState :=
  match k with
  | .char c =>
    if c = 'q' then some (exit_app s)
    else if c = 'r' then some (delete_request s)
    else if c = 'd' then some (duplicate_request s)
    else if c = 'j' then select_next s
    else if c = 'k' then some (select_previous s)
    else if c = 'e' then some (edit_request s)
    else some s
  | .esc => some (exit_app s)
  | .right => some (send_job s)
  | .delete => some (delete_request s)
  | .backspace => some (delete_request s)
  | .down => select_next s
  | .up => some (select_previous s)
  | _ => some s

/-- The `'y' | Enter` arm of the `TuiMode::Delete` branch of
`handle_key_event` (`src/ui.rs` lines 691-708).  `saveErr` is the outcome of
the external `save_config` file write (`none` = success, `some e` = the
displayed error).  Note the entry is removed before saving and a save
failure does not restore it. -/
def confirm_delete (s : TuiState) (saveErr : Option String) : TuiState :=
  match s.selected with
  | some idx =>
    match s.remotes[idx]? with
    | some config =>
      if config.config_origin = ConfigOrigin.RcloneConfig then
        { s with mode := TuiMode.Error "Cannot delete a remote from the rclone config" }
      else
        match saveErr with
        | some e =>
          let msg := "Failed to save the config after remote deletion " ++ e
          { s with remotes := s.remotes.eraseIdx idx, mode := TuiMode.Error msg }
        | none => { s with remotes := s.remotes.eraseIdx idx, mode := TuiMode.Normal }
    | none => s
  | none => s

/-- The `Enter` arm of the `TuiMode::EditString` branch of
`handle_key_event` (`src/ui.rs` lines 727-745). -/
def commit_edit (s : TuiState) (e : EditRemote) (saveErr : Option String) : TuiState :=
  let new_remote := e.finish
  match s.selected with
  | some idx =>
    match s.remotes[idx]? with
    | some config =>
      let remotes' :=
        if config.config_origin = ConfigOrigin.GalionConfig then s.remotes.set idx new_remote
        else new_remote :: s.remotes
      match saveErr with
      | some er =>
        { s with remotes := remotes', mode := TuiMode.Error ("Error save the config " ++ er) }
      | none => { s with remotes := remotes', mode := TuiMode.Normal }
    | none => { s with mode := TuiMode.Error "Cannot edit remote" }
  | none => { s with mode := TuiMode.Error "Cannot edit remote" }

/-- The `TuiMode::EditString` branch of `handle_key_event` (`src/ui.rs`
lines 711-751). -/
def handle_key_event_edit_mode (s : TuiState) (e : EditRemote) (k : KeyCode)
    (saveErr : Option String) : TuiState :=
  match k with
  | .esc => { s with mode := TuiMode.Normal }
  | .down =>
    if e.idx_string ≠ 2 then
      { s with mode := TuiMode.EditString ({ e with idx_string := e.idx_string + 1 }).reset_char_index }
    else s
  | .tab =>
    if e.idx_string ≠ 2 then
      { s with mode := TuiMode.EditString ({ e with idx_string := e.idx_string + 1 }).reset_char_index }
    else s
  | .up =>
    if e.idx_string ≠ 0 then
      { s with mode := TuiMode.EditString ({ e with idx_string := e.idx_string - 1 }).reset_char_index }
    else s
  | .enter => commit_edit s e saveErr
  | .left => { s with mode := TuiMode.EditString e.move_cursor_left }
  | .right => { s with mode := TuiMode.EditString e.move_cursor_right }
  | .char c => { s with mode := TuiMode.EditString (e.enter_char c) }
  | .backspace => { s with mode := TuiMode.EditString e.delete_char }
  | _ => s

/-- The `TuiMode::Error` branch of `handle_key_event` (`src/ui.rs` lines
681-686): `q` or `Esc` dismisses the error, everything else is ignored. -/
def handle_key_event_error_mode (s : TuiState) (k : KeyCode) : TuiState :=
  match k with
  | .char c => if c = 'q' then { s with mode := TuiMode.Normal } else s
  | .esc => { s with mode := TuiMode.Normal }
  | _ => s

/-- The `TuiMode::Delete` branch of `handle_key_event` (`src/ui.rs` lines
687-710): `q`, `n` or `Esc` cancels, `y` or `Enter` confirms. -/
def handle_key_event_delete_mode (s : TuiState) (k : KeyCode) (saveErr : Option String) :
    TuiState :=
  match k with
  | .char c =>
    if c = 'q' ∨ c = 'n' then { s with mode := TuiMode.Normal }
    else if c = 'y' then confirm_delete s saveErr
    else s
  | .esc => { s with mode := TuiMode.Normal }
  | .enter => confirm_delete s saveErr
  | _ => s

/-- `TuiApp::handle_key_event` from `src/ui.rs` (lines 670-753): the
Ctrl+C override, then dispatch on the current mode.  `ctrl` is the CONTROL
modifier of the event; `saveErr` the outcome of any `save_config` call the
handled event performs; `none` result models a panic (see `select_next`). -/
def handle_key_event (s : TuiState) (k : KeyCode) (ctrl : Bool) (saveErr : Option String) :
    Option TuiState :=
  if k = KeyCode.char 'c' ∧ ctrl then some (exit_app s)
  else
    match s.mode with
    | .Normal => handle_key_event_normal_mode s k
    | .Error _ => some (handle_key_event_error_mode s k)
    | .Delete => some (handle_key_event_delete_mode s k saveErr)
    | .EditString e => some (handle_key_event_edit_mode s e k saveErr)

/-! ### Concrete instances used by counterexamples and witnesses -/

/-- A finished job status. -/
def doneStatus : JobStatus := ⟨true, "12.5", "", "t0", none⟩

/-- A job key as the engine re-keys it after submission. -/
def doneKey : SyncJobData := ⟨7, "a", "s", "d"⟩

/-- A job map holding a single finished job. -/
def doneJobs : JobsList := [(doneKey, JobState.Done doneStatus)]

/-- A user-defined entry with a source but no destination. -/
def entryNoDest : RemoteConfiguration := ⟨"backup", some "/data", none, ConfigOrigin.GalionConfig⟩

/-- A user-defined entry with neither source nor destination. -/
def entryNoSrcNoDest : RemoteConfiguration := ⟨"backup", none, none, ConfigOrigin.GalionConfig⟩

/-- A user-defined entry with no source but a destination. -/
def entryNoSrc : RemoteConfiguration := ⟨"backup", none, some "remote:bucket", ConfigOrigin.GalionConfig⟩

/-- A normal-mode state whose store holds one entry lacking both locators. -/
def stateNoSrcNoDest : TuiState := ⟨[entryNoSrcNoDest], some 0, [], TuiMode.Normal, [], false⟩

/-- A normal-mode state with an empty store and the initial selection
`Some(0)` (the selection `TableState::default().with_selected(0)` starts
with; the store can become empty by deleting every user-defined entry). -/
def stateEmptyStore : TuiState := ⟨[], some 0, [], TuiMode.Normal, [], false⟩

/-! ### Helper lemmas -/

theorem lookupJob_insertJob (l : JobsList) (k q : SyncJobData) (v : JobState) :
    lookupJob (insertJob l q v) k = if k = q then some v else lookupJob l k := by
  induction l with
  | nil => simp [insertJob, lookupJob]
  | cons hd tl ih =>
    obtain ⟨a, b⟩ := hd
    by_cases hqa : q = a
    · subst hqa
      by_cases hkq : k = q <;> simp [insertJob, lookupJob, hkq]
    · by_cases hka : k = a
      · subst hka
        have hkq : k ≠ q := fun h => hqa h.symm
        simp [insertJob, lookupJob, hqa, hkq]
      · simp [insertJob, lookupJob, hqa, hka, ih]

theorem lookupJob_unique_of_nodup (l : JobsList) (k : SyncJobData) (v v' : JobState)
    (hnd : (l.map Prod.fst).Nodup) (h : lookupJob l k = some v) (hm : (k, v') ∈ l) :
    v' = v := by
  induction l with
  | nil => cases hm
  | cons hd tl ih =>
    obtain ⟨a, b⟩ := hd
    simp only [List.map_cons, List.nodup_cons] at hnd
    by_cases hka : k = a
    · subst hka
      have hbv : b = v := by simpa [lookupJob] using h
      subst hbv
      rcases List.mem_cons.mp hm with hhd | htl
      · exact congrArg Prod.snd hhd
      · exact absurd (List.mem_map.mpr ⟨(k, v'), htl, rfl⟩) hnd.1
    · simp only [lookupJob, if_neg hka] at h
      rcases List.mem_cons.mp hm with hhd | htl
      · cases hhd with | refl => exact absurd rfl hka
      · exact ih hnd.2 h htl

theorem pollOnce_preserves_done (oracle : Nat → PollResponse) (k : SyncJobData)
    (s : JobStatus) (clone : JobsList) :
    ∀ (live jobs' : JobsList), (∀ st, (k, st) ∈ clone → st = JobState.Done s) →
      lookupJob live k = some (JobState.Done s) → pollOnce oracle clone live = .ok jobs' →
      lookupJob jobs' k = some (JobState.Done s) := by
  induction clone with
  | nil =>
    intro live jobs' _ hlive hrun
    simp only [pollOnce] at hrun
    cases hrun
    exact hlive
  | cons hd rest ih =>
    intro live jobs' hclone hlive hrun
    obtain ⟨k', st'⟩ := hd
    have hclone' : ∀ st, (k, st) ∈ rest → st = JobState.Done s := by
      intro st hst
      exact hclone st (List.mem_cons_of_mem _ hst)
    cases st' with
    | Done s' =>
      simp only [pollOnce] at hrun
      exact ih live jobs' hclone' hlive hrun
    | Sent =>
      have hkk' : k' ≠ k := by
        intro h
        subst h
        exact absurd (hclone JobState.Sent (List.mem_cons_self _ _)) (by simp)
      cases horacle : oracle k'.job_id with
      | transportErr =>
        simp only [pollOnce, horacle] at hrun
        exact ih live jobs' hclone' hlive hrun
      | malformed =>
        simp only [pollOnce, horacle] at hrun
        cases hrun
      | ok finished status =>
        simp only [pollOnce, horacle] at hrun
        refine ih _ jobs' hclone' ?_ hrun
        rw [lookupJob_insertJob, if_neg (fun h => hkk' h.symm)]
        exact hlive
    | Pending s' =>
      have hkk' : k' ≠ k := by
        intro h
        subst h
        exact absurd (hclone (JobState.Pending s') (List.mem_cons_self _ _)) (by simp)
      cases horacle : oracle k'.job_id with
      | transportErr =>
        simp only [pollOnce, horacle] at hrun
        exact ih live jobs' hclone' hlive hrun
      | malformed =>
        simp only [pollOnce, horacle] at hrun
        cases hrun
      | ok finished status =>
        simp only [pollOnce, horacle] at hrun
        refine ih _ jobs' hclone' ?_ hrun
        rw [lookupJob_insertJob, if_neg (fun h => hkk' h.symm)]
        exact hlive

theorem pollOnce_error_of_malformed (oracle : Nat → PollResponse) (clone : JobsList)
    (hex : ∃ k st, (k, st) ∈ clone ∧ st.is_waiting = true ∧ oracle k.job_id = .malformed) :
    ∀ live, pollOnce oracle clone live = .error () := by
  induction clone with
  | nil =>
    obtain ⟨k, st, hmem, -, -⟩ := hex
    cases hmem
  | cons hd rest ih =>
    intro live
    obtain ⟨k, st, hmem, hwait, hmal⟩ := hex
    obtain ⟨k', st'⟩ := hd
    rcases List.mem_cons.mp hmem with hhd | htl
    · cases hhd with
      | refl =>
        cases st with
        | Done s' => simp [JobState.is_waiting] at hwait
        | Sent => simp [pollOnce, hmal]
        | Pending s' => simp [pollOnce, hmal]
    · have ihrest := ih ⟨k, st, htl, hwait, hmal⟩
      cases st' with
      | Done s' => simpa [pollOnce] using ihrest live
      | Sent =>
        cases horacle : oracle k'.job_id <;> simp [pollOnce, horacle, ihrest]
      | Pending s' =>
        cases horacle : oracle k'.job_id <;> simp [pollOnce, horacle, ihrest]

theorem pollOnce_transport_unchanged (oracle : Nat → PollResponse) (k : SyncJobData)
    (hk : oracle k.job_id = .transportErr) (clone : JobsList) :
    ∀ (live jobs' : JobsList), pollOnce oracle clone live = .ok jobs' →
      lookupJob jobs' k = lookupJob live k := by
  induction clone with
  | nil =>
    intro live jobs' hrun
    simp only [pollOnce] at hrun
    cases hrun
    rfl
  | cons hd rest ih =>
    intro live jobs' hrun
    obtain ⟨k', st'⟩ := hd
    cases st' with
    | Done s' =>
      simp only [pollOnce] at hrun
      exact ih live jobs' hrun
    | Sent =>
      cases horacle : oracle k'.job_id with
      | transportErr =>
        simp only [pollOnce, horacle] at hrun
        exact ih live jobs' hrun
      | malformed =>
        simp only [pollOnce, horacle] at hrun
        cases hrun
      | ok finished status =>
        have hkk' : k ≠ k' := by
          intro h
          rw [h, horacle] at hk
          cases hk
        simp only [pollOnce, horacle] at hrun
        rw [ih _ jobs' hrun, lookupJob_insertJob, if_neg hkk']
    | Pending s' =>
      cases horacle : oracle k'.job_id with
      | transportErr =>
        simp only [pollOnce, horacle] at hrun
        exact ih live jobs' hrun
      | malformed =>
        simp only [pollOnce, horacle] at hrun
        cases hrun
      | ok finished status =>
        have hkk' : k ≠ k' := by
          intro h
          rw [h, horacle] at hk
          cases hk
        simp only [pollOnce, horacle] at hrun
        rw [ih _ jobs' hrun, lookupJob_insertJob, if_neg hkk']

theorem EditRemote.activeInput_setActiveInput (e : EditRemote) (l : List Char) :
    (e.setActiveInput l).activeInput = l := by
  obtain ⟨i, ci, n, s, d⟩ := e
  cases i with
  | zero => rfl
  | succ j =>
    cases j with
    | zero => rfl
    | succ m => rfl

theorem EditRemote.idx_setActiveInput (e : EditRemote) (l : List Char) :
    (e.setActiveInput l).idx_string = e.idx_string := by
  obtain ⟨i, ci, n, s, d⟩ := e
  cases i with
  | zero => rfl
  | succ j =>
    cases j with
    | zero => rfl
    | succ m => rfl

theorem EditRemote.character_index_setActiveInput (e : EditRemote) (l : List Char) :
    (e.setActiveInput l).character_index = e.character_index := by
  obtain ⟨i, ci, n, s, d⟩ := e
  cases i with
  | zero => rfl
  | succ j =>
    cases j with
    | zero => rfl
    | succ m => rfl

theorem String.data_asString (s : String) : s.data.asString = s := rfl

theorem EditRemote.activeInput_update_cursor (e : EditRemote) (m : Nat) :
    ({ e with character_index := m } : EditRemote).activeInput = e.activeInput := rfl

/-! ### Claims -/

/-- Claim C3: starting from an edit buffer whose active field is empty and
whose cursor is 0, inserting any single character (including a multi-byte
one such as 'é') and then applying delete-before-cursor leaves the field
equal to the empty string and the cursor at 0.  In the character-list model
a panic is impossible by construction and every reachable string is valid
UTF-8 (see the module docstring on `byte_index`). -/
theorem insert_then_delete_on_empty_field (e : EditRemote) (c : Char)
    (hfield : e.activeInput = []) (hcur : e.character_index = 0) :
    ((e.enter_char c).delete_char).activeInput = [] ∧
    ((e.enter_char c).delete_char).character_index = 0 := by
  have h1 : e.enter_char c = (e.setActiveInput [c]).move_cursor_right := by
    unfold EditRemote.enter_char
    rw [hfield, hcur]
    rfl
  have h2 : ((e.setActiveInput [c]).move_cursor_right).character_index = 1 := by
    unfold EditRemote.move_cursor_right EditRemote.clamp_cursor
    rw [EditRemote.character_index_setActiveInput, hcur,
      EditRemote.activeInput_setActiveInput]
    rfl
  have h3 : ((e.setActiveInput [c]).move_cursor_right).activeInput = [c] := by
    unfold EditRemote.move_cursor_right
    rw [EditRemote.activeInput_update_cursor, EditRemote.activeInput_setActiveInput]
  rw [h1]
  set e1 := (e.setActiveInput [c]).move_cursor_right with he1
  have h4 : e1.delete_char = (e1.setActiveInput []).move_cursor_left := by
    unfold EditRemote.delete_char
    rw [if_pos (by rw [h2]; exact one_ne_zero)]
    rw [h2, h3]
    rfl
  rw [h4]
  constructor
  · unfold EditRemote.move_cursor_left
    rw [EditRemote.activeInput_update_cursor, EditRemote.activeInput_setActiveInput]
  · unfold EditRemote.move_cursor_left EditRemote.clamp_cursor
    rw [EditRemote.character_index_setActiveInput, h2,
      EditRemote.activeInput_setActiveInput]
    rfl

/-- Witness for C3 at a concrete buffer and the multi-byte character 'é'. -/
theorem insert_then_delete_on_empty_field_witness :
    ((EditRemote.delete_char
        (EditRemote.enter_char ⟨0, 0, [], [], []⟩ 'é')).activeInput = []) ∧
    ((EditRemote.delete_char
        (EditRemote.enter_char ⟨0, 0, [], [], []⟩ 'é')).character_index = 0) :=
  insert_then_delete_on_empty_field ⟨0, 0, [], [], []⟩ 'é' rfl rfl

/-- Claim C9: when the worker handles a `Submit` command and `rclone.sync`
succeeds but the returned JSON has no `"jobid"` field representable as
`u64`, the iteration inserts nothing into the job map, raises no error, and
the loop continues with the map unchanged: the job is silently dropped. -/
theorem submit_without_jobid_silently_dropped (jobs : JobsList) (d : SyncJobData)
    (inp : IterInput) (hcmd : inp.cmd = some (SyncJob.Sync d))
    (hresp : inp.submitResp = SubmitResponse.noJobId)
    (hidle : anyWaiting jobs = false) :
    workerIteration jobs inp = .ok (some jobs) := by
  unfold workerIteration
  rw [hidle, hcmd, hresp]
  rfl

/-- Witness for C9 at a concrete map and command. -/
theorem submit_without_jobid_silently_dropped_witness :
    workerIteration [(⟨7, "a", "s", "d"⟩, JobState.Done ⟨true, "1.0", "", "t", none⟩)]
      ⟨fun _ => PollResponse.transportErr, some (SyncJob.Sync ⟨0, "a", "s", "d"⟩),
        SubmitResponse.noJobId⟩ =
      .ok (some [(⟨7, "a", "s", "d"⟩, JobState.Done ⟨true, "1.0", "", "t", none⟩)]) :=
  submit_without_jobid_silently_dropped _ ⟨0, "a", "s", "d"⟩ _ rfl rfl (by decide)

/-- Claim C8: `save_config` writes exactly the `UserDefined`
(`GalionConfig`) subset of the store, in store order: the written list is a
sublist of the store (order preserved), an entry is written iff it is in
the store with origin `GalionConfig`, entries of origin `RcloneConfig`
(`ExternallyDiscovered`) are never written, and the config path — like the
in-memory store, which `save_config` only borrows immutably — is taken over
unchanged. -/
theorem save_config_writes_userdefined_subset (c : GalionConfig) :
    ((save_config c).remote_configurations.Sublist c.remote_configurations) ∧
    (∀ r, r ∈ (save_config c).remote_configurations ↔
        r ∈ c.remote_configurations ∧ r.config_origin = ConfigOrigin.GalionConfig) ∧
    (∀ r, r.config_origin = ConfigOrigin.RcloneConfig →
        r ∉ (save_config c).remote_configurations) ∧
    ((save_config c).config_path = c.config_path) := by
  refine ⟨List.filter_sublist _, ?_, ?_, rfl⟩
  · intro r
    simp [save_config, List.mem_filter]
  · intro r hr hmem
    simp only [save_config, List.mem_filter, decide_eq_true_eq] at hmem
    rw [hr] at hmem
    cases hmem.2

/-- Witness for C8: on a concrete two-entry store the written list keeps
exactly the `GalionConfig` entry. -/
theorem save_config_writes_userdefined_subset_witness :
    (⟨"g", some "s", some "d", ConfigOrigin.GalionConfig⟩ : RemoteConfiguration) ∈
      (save_config ⟨[⟨"g", some "s", some "d", ConfigOrigin.GalionConfig⟩,
        ⟨"r", none, some "rd", ConfigOrigin.RcloneConfig⟩], "p"⟩).remote_configurations ∧
    (⟨"r", none, some "rd", ConfigOrigin.RcloneConfig⟩ : RemoteConfiguration) ∉
      (save_config ⟨[⟨"g", some "s", some "d", ConfigOrigin.GalionConfig⟩,
        ⟨"r", none, some "rd", ConfigOrigin.RcloneConfig⟩], "p"⟩).remote_configurations :=
  ⟨((save_config_writes_userdefined_subset _).2.1 _).mpr (by decide),
    (save_config_writes_userdefined_subset _).2.2.1 _ rfl⟩

/-- Claim C2 counterexample: populating the edit buffer from a `UserDefined`
entry whose `source_locator` is `None` and committing immediately does not
restore the original source locator: `finish` wraps every field in `Some`,
so `None` comes back as `Some ""`. -/
theorem edit_roundtrip_counterexample :
    entryNoSrc.config_origin = ConfigOrigin.GalionConfig ∧
    entryNoSrc.remote_src = none ∧
    (populateEditBuffer entryNoSrc).finish.remote_src = some "" ∧
    (populateEditBuffer entryNoSrc).finish.remote_src ≠ entryNoSrc.remote_src := by
  decide

/-- Claim C2 (amended): for an existing `UserDefined` entry whose source and
destination locators are both present, populating the edit buffer and
committing with no edits reproduces the entry exactly (origin included);
when a locator is `None` it comes back as `Some ""` instead (see the
counterexample). -/
theorem edit_roundtrip (c : RemoteConfiguration)
    (h1 : c.config_origin = ConfigOrigin.GalionConfig)
    (h2 : c.remote_src ≠ none) (h3 : c.remote_dest ≠ none) :
    (populateEditBuffer c).finish = c := by
  obtain ⟨n, src, dest, o⟩ := c
  replace h1 : o = ConfigOrigin.GalionConfig := h1
  subst h1
  cases src with
  | none => exact absurd rfl h2
  | some s =>
    cases dest with
    | none => exact absurd rfl h3
    | some d =>
      simp [populateEditBuffer, EditRemote.finish, String.data_asString]

/-- Witness for C2 (amended) at a concrete entry with both locators. -/
theorem edit_roundtrip_witness :
    (populateEditBuffer ⟨"backup", some "/data", some "remote:bucket",
        ConfigOrigin.GalionConfig⟩).finish =
      ⟨"backup", some "/data", some "remote:bucket", ConfigOrigin.GalionConfig⟩ :=
  edit_roundtrip _ rfl (by decide) (by decide)

/-- Claim C4 counterexample: a trigger-job on a selected entry whose
destination locator is `None` does not always produce the destination error:
when the source locator is also `None`, the source check fires first and the
state machine enters the source error instead. -/
theorem trigger_job_no_destination_counterexample :
    entryNoSrcNoDest.remote_dest = none ∧
    handle_key_event stateNoSrcNoDest KeyCode.right false none =
      some { stateNoSrcNoDest with
        mode := TuiMode.Error "Remote doesn't have a source - press e for edit" } ∧
    (TuiMode.Error "Remote doesn't have a source - press e for edit" ≠
      TuiMode.Error "Remote doesn't have a destination - press e for edit") := by
  decide

/-- Claim C4 (amended): in Normal mode, a trigger-job on a selected entry
with a source locator but no destination locator enters
`Error("Remote doesn't have a destination - press e for edit")` and changes
nothing else: the configuration store, the job map, the sent-command list
(so no command is sent), the selection and the exit flag are all unchanged. -/
theorem trigger_job_missing_destination (s : TuiState) (idx : Nat)
    (r : RemoteConfiguration) (src : String) (saveErr : Option String)
    (hmode : s.mode = TuiMode.Normal) (hsel : s.selected = some idx)
    (hr : s.remotes[idx]? = some r) (hsrc : r.remote_src = some src)
    (hdest : r.remote_dest = none) :
    handle_key_event s KeyCode.right false saveErr =
      some { s with mode := TuiMode.Error "Remote doesn't have a destination - press e for edit" } := by
  obtain ⟨rem, sel, jobs, mode, sent, ex⟩ := s
  replace hmode : mode = TuiMode.Normal := hmode
  subst hmode
  replace hsel : sel = some idx := hsel
  subst hsel
  replace hr : rem[idx]? = some r := hr
  simp [handle_key_event, handle_key_event_normal_mode, send_job, hr, hsrc, hdest]

/-- Witness for C4 (amended) at a concrete state. -/
theorem trigger_job_missing_destination_witness :
    handle_key_event ⟨[entryNoDest], some 0, [], TuiMode.Normal, [], false⟩
        KeyCode.right false none =
      some ⟨[entryNoDest], some 0, [],
        TuiMode.Error "Remote doesn't have a destination - press e for edit", [], false⟩ :=
  trigger_job_missing_destination ⟨[entryNoDest], some 0, [], TuiMode.Normal, [], false⟩
    0 entryNoDest "/data" none rfl rfl rfl rfl rfl

/-- Claim C5: in Normal mode, a delete-request on a selected entry of origin
`ExternallyDiscovered` (`RcloneConfig`) enters
`Error("Cannot delete a remote from the rclone config")` while changing
nothing else (in particular the store is unchanged in length and contents);
dismissing the error returns exactly the previous state, so re-triggering
the same delete-request re-enters the same error, again without mutating
the store. -/
theorem delete_externally_discovered_error (s : TuiState) (idx : Nat)
    (r : RemoteConfiguration) (saveErr : Option String)
    (hmode : s.mode = TuiMode.Normal) (hsel : s.selected = some idx)
    (hr : s.remotes[idx]? = some r)
    (horigin : r.config_origin = ConfigOrigin.RcloneConfig) :
    (handle_key_event s (KeyCode.char 'r') false saveErr =
      some { s with mode := TuiMode.Error "Cannot delete a remote from the rclone config" }) ∧
    (handle_key_event { s with mode := TuiMode.Error "Cannot delete a remote from the rclone config" } KeyCode.esc false saveErr = some s) ∧
    (({ s with mode := TuiMode.Error "Cannot delete a remote from the rclone config" } : TuiState).remotes = s.remotes) := by
  obtain ⟨rem, sel, jobs, mode, sent, ex⟩ := s
  replace hmode : mode = TuiMode.Normal := hmode
  subst hmode
  replace hsel : sel = some idx := hsel
  subst hsel
  replace hr : rem[idx]? = some r := hr
  refine ⟨?_, ?_, rfl⟩
  · simp [handle_key_event, handle_key_event_normal_mode, delete_request, hr, horigin]
  · simp [handle_key_event, handle_key_event_error_mode]

/-- Witness for C5 at a concrete state with one externally discovered entry. -/
theorem delete_externally_discovered_error_witness :
    (handle_key_event ⟨[⟨"r", none, some "remote:x", ConfigOrigin.RcloneConfig⟩], some 0, [], TuiMode.Normal, [], false⟩ (KeyCode.char 'r') false none =
      some ⟨[⟨"r", none, some "remote:x", ConfigOrigin.RcloneConfig⟩], some 0, [], TuiMode.Error "Cannot delete a remote from the rclone config", [], false⟩) ∧
    (handle_key_event ⟨[⟨"r", none, some "remote:x", ConfigOrigin.RcloneConfig⟩], some 0, [], TuiMode.Error "Cannot delete a remote from the rclone config", [], false⟩ KeyCode.esc false none =
      some ⟨[⟨"r", none, some "remote:x", ConfigOrigin.RcloneConfig⟩], some 0, [], TuiMode.Normal, [], false⟩) :=
  ⟨(delete_externally_discovered_error
      ⟨[⟨"r", none, some "remote:x", ConfigOrigin.RcloneConfig⟩], some 0, [], TuiMode.Normal, [], false⟩
      0 ⟨"r", none, some "remote:x", ConfigOrigin.RcloneConfig⟩ none rfl rfl rfl rfl).1,
    (delete_externally_discovered_error
      ⟨[⟨"r", none, some "remote:x", ConfigOrigin.RcloneConfig⟩], some 0, [], TuiMode.Normal, [], false⟩
      0 ⟨"r", none, some "remote:x", ConfigOrigin.RcloneConfig⟩ none rfl rfl rfl rfl).2.1⟩

/-- Claim C10: in ConfirmDelete mode, confirm-yes on a `UserDefined` entry
removes the entry from the in-memory store and then attempts persistence;
when saving fails the removal is not rolled back: the state machine enters
`Error` and the store is one entry shorter. -/
theorem confirm_delete_save_failure_keeps_removal (s : TuiState) (idx : Nat)
    (r : RemoteConfiguration) (e : String)
    (hmode : s.mode = TuiMode.Delete) (hsel : s.selected = some idx)
    (hr : s.remotes[idx]? = some r)
    (horigin : r.config_origin = ConfigOrigin.GalionConfig) :
    (handle_key_event s (KeyCode.char 'y') false (some e) =
      some { s with remotes := s.remotes.eraseIdx idx, mode := TuiMode.Error ("Failed to save the config after remote deletion " ++ e) }) ∧
    (s.remotes.eraseIdx idx).length + 1 = s.remotes.length := by
  obtain ⟨rem, sel, jobs, mode, sent, ex⟩ := s
  replace hmode : mode = TuiMode.Delete := hmode
  subst hmode
  replace hsel : sel = some idx := hsel
  subst hsel
  replace hr : rem[idx]? = some r := hr
  have hlt : idx < rem.length := by
    by_contra hge
    rw [List.getElem?_eq_none (le_of_not_lt hge)] at hr
    cases hr
  have horigin' : r.config_origin ≠ ConfigOrigin.RcloneConfig := by
    rw [horigin]
    decide
  constructor
  · simp [handle_key_event, handle_key_event_delete_mode, confirm_delete, hr, horigin']
  · exact List.length_eraseIdx_add_one hlt

/-- Witness for C10 at a concrete two-entry store whose save fails. -/
theorem confirm_delete_save_failure_keeps_removal_witness :
    (handle_key_event ⟨[entryNoDest, entryNoSrc], some 0, [], TuiMode.Delete, [], false⟩ (KeyCode.char 'y') false (some "disk full") =
      some ⟨[entryNoSrc], some 0, [], TuiMode.Error "Failed to save the config after remote deletion disk full", [], false⟩) ∧
    ([entryNoDest, entryNoSrc].eraseIdx 0).length + 1 = [entryNoDest, entryNoSrc].length :=
  ⟨(confirm_delete_save_failure_keeps_removal
      ⟨[entryNoDest, entryNoSrc], some 0, [], TuiMode.Delete, [], false⟩
      0 entryNoDest "disk full" rfl rfl rfl rfl).1,
    (confirm_delete_save_failure_keeps_removal
      ⟨[entryNoDest, entryNoSrc], some 0, [], TuiMode.Delete, [], false⟩
      0 entryNoDest "disk full" rfl rfl rfl rfl).2⟩

/-- Claim C7 counterexample: with an empty store and an existing selection
(the initial selection is `Some(0)` and the store can be emptied by
deletions), select-next evaluates `remotes().len() - 1` on `usize` zero,
which underflows: a panic in debug builds (modelled `none`), and in release
builds a wrap that equally leaves any list bounds.  So select-next does not
"never panic ... including when the store is empty". -/
theorem select_next_empty_store_counterexample :
    stateEmptyStore.remotes = [] ∧
    handle_key_event stateEmptyStore (KeyCode.char 'j') false none = none := by
  decide

/-- Claim C7 (amended): when the store is nonempty, select-next and
select-previous never panic and clamp the selection to the list bounds:
select-next moves to `i + 1` but stays at `len - 1` when already at or past
the last entry, and the result is always `< len`; select-previous stays at
`0` on the first entry, otherwise moves to `i - 1`, and stays in bounds
whenever the current selection is; with no current selection both select
entry `0`.  On an empty store select-next underflows (see the
counterexample). -/
theorem selection_stays_in_bounds (s : TuiState) (hne : s.remotes ≠ []) :
    (∀ i, s.selected = some i →
      select_next s = some { s with selected := some (if i ≥ s.remotes.length - 1 then s.remotes.length - 1 else i + 1) } ∧
      (if i ≥ s.remotes.length - 1 then s.remotes.length - 1 else i + 1) < s.remotes.length) ∧
    (s.selected = none → select_next s = some { s with selected := some 0 } ∧ 0 < s.remotes.length) ∧
    (∀ i, s.selected = some i →
      select_previous s = { s with selected := some (if i = 0 then 0 else i - 1) } ∧
      (i < s.remotes.length → (if i = 0 then 0 else i - 1) < s.remotes.length)) ∧
    (s.selected = none → select_previous s = { s with selected := some 0 } ∧ 0 < s.remotes.length) := by
  have hlen : s.remotes.length ≠ 0 := fun h => hne (List.length_eq_zero.mp h)
  refine ⟨?_, ?_, ?_, ?_⟩
  · intro i hi
    refine ⟨?_, ?_⟩
    · simp [select_next, hi, hlen]
    · split_ifs <;> omega
  · intro hi
    exact ⟨by simp [select_next, hi], by omega⟩
  · intro i hi
    refine ⟨by simp [select_previous, hi], ?_⟩
    intro hilt
    split_ifs <;> omega
  · intro hi
    exact ⟨by simp [select_previous, hi], by omega⟩

/-- Witness for C7 (amended) at a one-entry store with the selection on the
last entry. -/
theorem selection_stays_in_bounds_witness :
    select_next ⟨[entryNoDest], some 0, [], TuiMode.Normal, [], false⟩ =
      some ⟨[entryNoDest], some 0, [], TuiMode.Normal, [], false⟩ ∧
    select_previous ⟨[entryNoDest], some 0, [], TuiMode.Normal, [], false⟩ =
      ⟨[entryNoDest], some 0, [], TuiMode.Normal, [], false⟩ :=
  ⟨((selection_stays_in_bounds _ (by decide)).1 0 rfl).1,
    ((selection_stays_in_bounds _ (by decide)).2.2.1 0 rfl).1⟩

/-- Claim C1 counterexample: a `Done` entry is not immutable across worker
iterations as stated: a later `Submit` whose engine-returned job id re-keys
the submitted data to exactly the `Done` entry's key (same id, name, source
and destination) overwrites that entry back to `Sent`. -/
theorem done_overwritten_by_rekeyed_submission :
    lookupJob doneJobs doneKey = some (JobState.Done doneStatus) ∧
    workerIteration doneJobs ⟨fun _ => PollResponse.transportErr, some (SyncJob.Sync ⟨0, "a", "s", "d"⟩), SubmitResponse.jobId 7⟩ = .ok (some [(doneKey, JobState.Sent)]) ∧
    lookupJob [(doneKey, JobState.Sent)] doneKey ≠ some (JobState.Done doneStatus) := by
  refine ⟨by decide, rfl, by decide⟩

/-- Claim C1 (amended): once a job entry is `Done(status)`, the poll cycle
always skips it and a worker iteration never changes it, provided any
submission handled in that iteration is not re-keyed by the engine-returned
job id to exactly that entry's key (the counterexample shows this proviso
is necessary).  Key uniqueness is the `BTreeMap` invariant. -/
theorem done_state_immutable (jobs jobs' : JobsList) (inp : IterInput)
    (k : SyncJobData) (ds : JobStatus)
    (hnd : (jobs.map Prod.fst).Nodup)
    (hk : lookupJob jobs k = some (JobState.Done ds))
    (hfresh : ∀ d id, inp.cmd = some (SyncJob.Sync d) →
      inp.submitResp = SubmitResponse.jobId id → ({ d with job_id := id } : SyncJobData) ≠ k)
    (hstep : workerIteration jobs inp = .ok (some jobs')) :
    lookupJob jobs' k = some (JobState.Done ds) := by
  unfold workerIteration at hstep
  rcases hpoll : (if anyWaiting jobs then pollCycle inp.oracle jobs else .ok jobs) with e | jobs1
  · rw [hpoll] at hstep
    cases hstep
  · rw [hpoll] at hstep
    have h1 : lookupJob jobs1 k = some (JobState.Done ds) := by
      by_cases hw : anyWaiting jobs
      · rw [if_pos hw] at hpoll
        refine pollOnce_preserves_done inp.oracle k ds jobs jobs jobs1 ?_ hk hpoll
        intro st' hmem
        exact lookupJob_unique_of_nodup jobs k _ st' hnd hk hmem
      · rw [if_neg hw] at hpoll
        cases hpoll
        exact hk
    rcases hcmd : inp.cmd with - | c
    · rw [hcmd] at hstep
      cases hstep
      exact h1
    · rw [hcmd] at hstep
      cases c with
      | Exit => cases hstep
      | Sync d =>
        rcases hresp : inp.submitResp with - | - | id
        · rw [hresp] at hstep
          cases hstep
        · rw [hresp] at hstep
          cases hstep
          exact h1
        · rw [hresp] at hstep
          simp only [handleCommand, Except.ok.injEq, Option.some.injEq] at hstep
          subst hstep
          rw [lookupJob_insertJob, if_neg (fun h => hfresh d id hcmd hresp h.symm)]
          exact h1

/-- Witness for C1 (amended): a `Done` entry survives an iteration that
polls nothing (no waiting jobs) and receives no command. -/
theorem done_state_immutable_witness :
    lookupJob doneJobs doneKey = some (JobState.Done doneStatus) :=
  done_state_immutable doneJobs doneJobs
    ⟨fun _ => PollResponse.transportErr, none, SubmitResponse.noJobId⟩ doneKey doneStatus
    (by decide) (by decide) (fun d id h => by cases h) rfl

/-- Claim C6: if any waiting entry's poll-status response is malformed
(decoding into `JobStatus` fails), the poll cycle aborts with an error, and
the worker's outer handler sends the termination message `ResultJob::Exit`
on the snapshot channel before returning the error; by contrast an ordinary
transport error never aborts the cycle and leaves the affected entry's
state unchanged for retry on the next cycle. -/
theorem poll_decode_failure_aborts (oracle : Nat → PollResponse) (jobs : JobsList) :
    ((∃ k st, (k, st) ∈ jobs ∧ st.is_waiting = true ∧ oracle k.job_id = PollResponse.malformed) →
      pollCycle oracle jobs = .error () ∧
      ResultJob.Exit ∈ (backgroundThreadResult (.error ())).1 ∧
      (backgroundThreadResult (.error ())).2 = .error ()) ∧
    (∀ jobs' k, pollCycle oracle jobs = .ok jobs' →
      oracle k.job_id = PollResponse.transportErr →
      lookupJob jobs' k = lookupJob jobs k) := by
  constructor
  · intro hex
    refine ⟨pollOnce_error_of_malformed oracle jobs hex jobs, ?_, rfl⟩
    simp [backgroundThreadResult]
  · intro jobs' k hrun hk
    exact pollOnce_transport_unchanged oracle k hk jobs jobs jobs' hrun

/-- Witness for C6: a malformed response on a waiting entry aborts a
concrete cycle with the termination message sent, and on another concrete
cycle (one entry updated, one hit by a transport error) the transport-error
entry is untouched. -/
theorem poll_decode_failure_aborts_witness :
    (pollCycle (fun id => if id = 7 then PollResponse.malformed else PollResponse.transportErr) [(⟨7, "a", "s", "d"⟩, JobState.Sent)] = .error () ∧
      ResultJob.Exit ∈ (backgroundThreadResult (.error ())).1 ∧
      (backgroundThreadResult (.error ())).2 = .error ()) ∧
    lookupJob [(⟨1, "a", "s", "d"⟩, JobState.Pending ⟨false, "0", "", "t", none⟩), (⟨2, "b", "s", "d"⟩, JobState.Sent)] ⟨2, "b", "s", "d"⟩ =
      lookupJob [(⟨1, "a", "s", "d"⟩, JobState.Sent), (⟨2, "b", "s", "d"⟩, JobState.Sent)] ⟨2, "b", "s", "d"⟩ :=
  ⟨(poll_decode_failure_aborts _ _).1 ⟨⟨7, "a", "s", "d"⟩, JobState.Sent, by decide, rfl, rfl⟩,
    (poll_decode_failure_aborts
        (fun id => if id = 1 then PollResponse.ok (some false) ⟨false, "0", "", "t", none⟩ else PollResponse.transportErr)
        [(⟨1, "a", "s", "d"⟩, JobState.Sent), (⟨2, "b", "s", "d"⟩, JobState.Sent)]).2
      _ _ rfl rfl⟩

end Galion
